import Mathlib

/-!
Verification development for lib/PirateNode.js: a shallow embedding of the
node supervisor, reindex orchestrator, config materializer and the two
query builders, with theorems about their contracts.

Modelling conventions:
- JS objects are key-value lists in insertion order (JVal / Obj).
- The npm extend module (shallow form, as used in the source) is the extend
  function below; it both yields the merged object and, in the source,
  mutates its first argument, which the request-builder model records by
  returning the post-call state of the options object.
- Remote outcomes (elasticsearch calls, river HTTP exchanges) are supplied
  by a World record; each orchestration function returns the ordered list of
  side-effecting steps it performs together with the error value it hands to
  its callback (none = success), mirroring the error-first callback style.
-/

namespace PirateNode

mutual
/-- JSON-like values exchanged with the daemon and the river API. Numbers are
rationals, since every numeric literal in the source is an exact decimal. -/
inductive JVal where
  | str : String → JVal
  | num : Rat → JVal
  | bool : Bool → JVal
  | strArr : List String → JVal
  | obj : JFields → JVal
  deriving DecidableEq

/-- Field list of a nested JSON object, in insertion order. -/
inductive JFields where
  | nil : JFields
  | fcons : String → JVal → JFields → JFields
  deriving DecidableEq
end

/-- Builds the field list of a nested JSON object from a key-value list. -/
def JFields.ofList : List (String × JVal) → JFields
  | [] => .nil
  | (k, v) :: rest => .fcons k v (JFields.ofList rest)

/-- Convenience constructor for a nested JSON object literal. -/
def jobj (l : List (String × JVal)) : JVal := .obj (JFields.ofList l)

/-- A top-level JS object (request, options or config mapping), as a
key-value list in insertion order. -/
abbrev Obj := List (String × JVal)

/-- JS property assignment target[k] = v: replaces the value of an existing
key in place, otherwise appends the key at the end (insertion order). -/
def setKey : Obj → String → JVal → Obj
  | [], k, v => [(k, v)]
  | (k0, v0) :: rest, k, v =>
    if k0 = k then (k, v) :: rest else (k0, v0) :: setKey rest k v

/-- The npm extend module in the shallow form used throughout the source:
extend(target, source) copies every key of source into target, overwriting
existing values, and returns the (mutated) target. -/
def extend (target source : Obj) : Obj :=
  source.foldl (fun acc p => setKey acc p.1 p.2) target

/-- JS property read on a mapping. -/
def getKey : Obj → String → Option JVal
  | [], _ => none
  | (k0, v) :: rest, k => if k0 = k then some v else getKey rest k

/-- config.search: daemon host and port plus the master-eligibility flag
(the RuntimeConfig of the spec). -/
structure SearchConfig where
  host : String
  port : Nat
  master : Bool
  deriving DecidableEq

/-- config.dataSource: relational-source connection parameters. -/
structure DataSourceConfig where
  url : String
  user : String
  password : String
  deriving DecidableEq

/-- The application context configuration object passed to PirateNode. -/
structure Config where
  search : SearchConfig
  dataSource : DataSourceConfig
  deriving DecidableEq

/-- Default name for the distributed cluster (line 10). -/
def CLUSTER_NAME : String := "piratesbey"

/-- Name of the torrents index (line 14). -/
def INDEX_NAME : String := "torrents"

/-- URL of the JDBC river (lines 21-22). NODE_NAME is generated at random per
process, so the node name is a parameter throughout this development. -/
def RIVER_URL (config : Config) : String :=
  "http://" ++ config.search.host ++ ":" ++ toString config.search.port ++
    "/_river/my_mysql_river"

/-- Document mapping for torrents (lines 26-42). -/
def TORRENT_DOCUMENT_MAPPING : JVal :=
  jobj [("_id", jobj [("type", .str "string"), ("path", .str "hash"),
          ("index", .str "not_analyzed")]),
        ("properties", jobj [
          ("hash", jobj [("type", .str "string"), ("index", .str "not_analyzed")]),
          ("uploaded", jobj [("type", .str "date"), ("index", .str "not_analyzed")]),
          ("size", jobj [("type", .str "long"), ("index", .str "not_analyzed")]),
          ("title", jobj [("type", .str "string"), ("analyzer", .str "english")]),
          ("source", jobj [("type", .str "string"), ("analyzer", .str "english")]),
          ("nfo", jobj [("type", .str "string"), ("analyzer", .str "english")]),
          ("seeders", jobj [("type", .str "long"), ("index", .str "not_analyzed")]),
          ("leechers", jobj [("type", .str "long"), ("index", .str "not_analyzed")])])]

/-- Key identifying that the server has started (line 46). -/
def START_TRIGGER (nodeName : String) : String := "[" ++ nodeName ++ "] started"

/-- Outcome of one HTTP exchange performed with the request library: the
transport-level error handed to the callback as err, and the response status;
the library sets err only on transport failure, never from the status code. -/
structure HttpOutcome where
  transportError : Option String
  status : Nat
  deriving DecidableEq

/-- Remote responses for one run of the orchestration: the index existence
check, the index deletion, the river DELETE and the river PUT. -/
structure World where
  existsResult : Except String Bool
  deleteResult : Option String
  riverDelete : HttpOutcome
  riverPut : HttpOutcome

/-- Observable side-effecting steps of the reindex orchestration, in order. -/
inductive Step where
  | checkExists
  | deleteIndex
  | riverDelete (uri : String)
  | sleep (ms : Nat)
  | riverPut (uri : String) (body : JVal)
  deriving DecidableEq

/-- Body of the river PUT request issued by createRiver (lines 106-125). -/
def riverRequestBody (config : Config) : JVal :=
  jobj [("type", .str "jdbc"),
        ("jdbc", jobj [
          ("url", .str ("jdbc:" ++ config.dataSource.url)),
          ("user", .str config.dataSource.user),
          ("password", .str config.dataSource.password),
          ("sql", .str "select * from torrents"),
          ("index", .str INDEX_NAME),
          ("type", .str "torrent"),
          ("index_settings", jobj [("index", jobj [
            ("number_of_shards", .num 5),
            ("number_of_replicas", .num 1)])]),
          ("type_mapping", jobj [("torrent", TORRENT_DOCUMENT_MAPPING)])])]

/-- createRiver (lines 101-129): one PUT of the connector definition to
RIVER_URL/_meta; the callback receives exactly the transport error — the
response and its body are discarded. -/
def createRiver (config : Config) (w : World) : List Step × Option String :=
  ([.riverPut (RIVER_URL config ++ "/_meta") (riverRequestBody config)],
   w.riverPut.transportError)

/-- triggerRiver (lines 135-149): DELETE the river; on a transport error
report it at once; otherwise — whatever the response status, e.g. 404 for an
absent river — wait 2000 ms and run createRiver. -/
def triggerRiver (config : Config) (w : World) : List Step × Option String :=
  match w.riverDelete.transportError with
  | some e => ([.riverDelete (RIVER_URL config)], some e)
  | none =>
    let r := createRiver config w
    (.riverDelete (RIVER_URL config) :: .sleep 2000 :: r.1, r.2)

/-- setupIndex (lines 257-273): check index existence; on error report it; if
the index exists delete it (reporting a deletion error without going
further) and then trigger the river; otherwise trigger the river directly. -/
def setupIndex (config : Config) (w : World) : List Step × Option String :=
  match w.existsResult with
  | .error e => ([.checkExists], some e)
  | .ok true =>
    match w.deleteResult with
    | some e => ([.checkExists, .deleteIndex], some e)
    | none =>
      let r := triggerRiver config w
      (.checkExists :: .deleteIndex :: r.1, r.2)
  | .ok false =>
    let r := triggerRiver config w
    (.checkExists :: r.1, r.2)

/-- The elasticsearch client constructed by initialize (lines 172-179). -/
structure ClusterClient where
  host : String
  log : Bool
  sniffOnStart : Bool
  sniffInterval : Nat
  deriving DecidableEq

/-- The initialize operation (lines 172-179): builds the client handle from
host and port with sniffing on start and a 60-second sniff interval. The
source calls it initialize, which Lean reserves. -/
def initializeClient (config : Config) : ClusterClient :=
  { host := config.search.host ++ ":" ++ toString config.search.port,
    log := false, sniffOnStart := true, sniffInterval := 60000 }

/-- What one call to shutdown does, as a function of whether the client
handle has been assigned yet (client stays undefined until initialize). -/
inductive ShutdownBehavior where
  | throwsTypeError
  | callsRemoteShutdown (c : ClusterClient)
  deriving DecidableEq

/-- shutdown (lines 250-252): reads client.nodes and calls its shutdown
operation; with client still undefined the property read throws a TypeError
before any remote call is made. -/
def shutdown (client : Option ClusterClient) : ShutdownBehavior :=
  match client with
  | none => .throwsTypeError
  | some c => .callsRemoteShutdown c

/-- Content of the config file elasticsearch.json when start runs. -/
inductive ConfigFile where
  | absent
  | malformed
  | parsed (base : Obj)

/-- The cluster/node/network overrides extended over the base configuration
(lines 192-204). -/
def configOverrides (nodeName : String) (config : Config) : Obj :=
  [("cluster", jobj [("name", .str CLUSTER_NAME)]),
   ("node", jobj [("name", .str nodeName),
                  ("master", .bool config.search.master)]),
   ("network", jobj [("bind_host", .str config.search.host),
                     ("publish_host", .str config.search.host)])]

/-- prepareConfig (lines 183-206): parse the existing file if present (the
parse throws on malformed content, modelled as the error case), extend the
base with the overrides and write the result back unconditionally; an ok
result carries the content written, the error case is the thrown exception
in which nothing is written. -/
def prepareConfig (file : ConfigFile) (nodeName : String) (config : Config) :
    Except Unit Obj :=
  match file with
  | .absent => .ok (extend [] (configOverrides nodeName config))
  | .malformed => .error ()
  | .parsed base => .ok (extend base (configOverrides nodeName config))

/-- Observable steps of start up to attaching the output handlers. -/
inductive StartStep where
  | findJavaHome
  | writeConfig (content : Obj)
  | spawnDaemon
  deriving DecidableEq

/-- start (lines 218-245), up to spawning the daemon: findJavaHome, then
prepareConfig, then spawn; a JSON.parse exception inside prepareConfig
propagates out of the callback and stops the sequence before anything is
written or spawned. The Bool records whether the spawn was reached. -/
def startSequence (file : ConfigFile) (nodeName : String) (config : Config) :
    List StartStep × Bool :=
  match prepareConfig file nodeName config with
  | .error _ => ([.findJavaHome], false)
  | .ok written => ([.findJavaHome, .writeConfig written, .spawnDaemon], true)

/-- Substring containment over char lists, the semantics of the JS test
data.toString().indexOf(trigger) > -1. -/
def hasSubstr (needle : List Char) : List Char → Bool
  | [] => needle.isEmpty
  | c :: rest => needle.isPrefixOf (c :: rest) || hasSubstr needle rest

/-- String form of hasSubstr. -/
def strContains (chunk trigger : String) : Bool :=
  hasSubstr trigger.data chunk.data

/-- Actions one stdout data-handler invocation can perform: running
initialize and scheduling the start callback with process.nextTick. -/
inductive OutEvent where
  | runInit
  | deferCallback
  deriving DecidableEq

/-- The stdout data handler (lines 234-239): on every chunk containing the
start trigger it calls initialize() and then defers the callback to the next
tick; on any other chunk it does nothing. The handler is registered once and
never removed, and it keeps no flag recording an earlier match. -/
def onStdoutChunk (nodeName chunk : String) : List OutEvent :=
  if strContains chunk (START_TRIGGER nodeName) then
    [.runInit, .deferCallback]
  else []

/-- All handler actions over a whole sequence of stdout chunks, in order. -/
def stdoutEvents (nodeName : String) (chunks : List String) : List OutEvent :=
  (chunks.map (onStdoutChunk nodeName)).flatten

/-- Number of times the start callback gets scheduled over a chunk stream. -/
def callbackCount (nodeName : String) (chunks : List String) : Nat :=
  (stdoutEvents nodeName chunks).count .deferCallback

/-- Result of building one search request: the request object handed to
client.search, and the state of the caller's options object after the call.
In the source the request is the return value of extend(options, ...), which
is the mutated options object itself, so the two components coincide. -/
structure BuiltRequest where
  request : Obj
  optionsAfter : Obj
  deriving DecidableEq

/-- search (lines 284-290). -/
def search (query : String) (options : Obj) : BuiltRequest :=
  let r := extend options
    [("index", .str INDEX_NAME), ("type", .str "torrent"), ("q", .str query)]
  { request := r, optionsAfter := r }

/-- Body of the fullSearch request (lines 305-324). -/
def fullSearchBody (query : String) : JVal :=
  jobj [("min_score", .num 0.5),
        ("query", jobj [
          ("function_score", jobj [
            ("query", jobj [
              ("query_string", jobj [
                ("fields", .strArr ["title^4", "nfo"]),
                ("query", .str query)])]),
            ("field_value_factor", jobj [
              ("field", .str "seeders"),
              ("modifier", .str "ln2p"),
              ("factor", .num 0.5)]),
            ("boost_mode", .str "multiply"),
            ("max_boost", .num 2.5)])])]

/-- fullSearch (lines 301-326). -/
def fullSearch (query : String) (options : Obj) : BuiltRequest :=
  let r := extend options
    [("index", .str INDEX_NAME), ("type", .str "torrent"),
     ("body", fullSearchBody query)]
  { request := r, optionsAfter := r }

/-- Numeric value of a digit character. -/
def charDigit (c : Char) : Option Nat :=
  if c.isDigit then some (c.toNat - Char.toNat (Char.ofNat 48)) else none

/-- Accumulating decimal reading of a digit string. -/
def digitsToNatAux : List Char → Nat → Option Nat
  | [], acc => some acc
  | c :: rest, acc =>
    match charDigit c with
    | none => none
    | some d => digitsToNatAux rest (acc * 10 + d)

/-- Decimal reading of a non-empty digit string. -/
def digitsToNat (cs : List Char) : Option Nat :=
  if cs.isEmpty then none else digitsToNatAux cs 0

/-- Spec-side reading of an elasticsearch boosted-field entry of the form
name^boost (94 is the caret): the field name and its boost factor, which is
1 when no boost suffix is present (so nfo carries boost 1, title^4 boost 4). -/
def fieldBoost (s : String) : String × Nat :=
  match (s.data.dropWhile (fun c => c ≠ Char.ofNat 94)) with
  | [] => (s, 1)
  | _ :: boostChars =>
    (String.mk (s.data.takeWhile (fun c => c ≠ Char.ofNat 94)),
     (digitsToNat boostChars).getD 1)

/-- The scored-search request body as the spec describes it: a
function-score query wrapping a query-string query over exactly the fields
title (boost 4, written title^4) and nfo (boost 1), a field-value-factor on
seeders with the ln2p modifier — elasticsearch's x ↦ ln(2 + x) — and factor
0.5, boost mode multiply, maximum boost clamped at 2.5, and a minimum-score
floor of 0.5 excluding lower-scoring results. -/
def specScoredBody (query : String) : JVal :=
  jobj [("min_score", .num 0.5),
        ("query", jobj [
          ("function_score", jobj [
            ("query", jobj [
              ("query_string", jobj [
                ("fields", .strArr ["title^4", "nfo"]),
                ("query", .str query)])]),
            ("field_value_factor", jobj [
              ("field", .str "seeders"),
              ("modifier", .str "ln2p"),
              ("factor", .num 0.5)]),
            ("boost_mode", .str "multiply"),
            ("max_boost", .num 2.5)])])]

/-- A sample application configuration used by the concrete witnesses. -/
def sampleConfig : Config :=
  { search := { host := "localhost", port := 9200, master := true },
    dataSource := { url := "mysql://localhost:3306/piratesbey",
                    user := "root", password := "secret" } }

/-- A successful HTTP exchange. -/
def okHttp : HttpOutcome := { transportError := none, status := 200 }

/-- World where the index existence check itself fails. -/
def worldExistsErr : World :=
  { existsResult := .error "no living connections", deleteResult := none,
    riverDelete := okHttp, riverPut := okHttp }

/-- World where the index exists and its deletion fails. -/
def worldDeleteErr : World :=
  { existsResult := .ok true, deleteResult := some "index delete failed",
    riverDelete := okHttp, riverPut := okHttp }

/-- World where the index is absent and every river exchange succeeds; the
river DELETE answers 404 because no connector exists yet. -/
def worldNoIndex : World :=
  { existsResult := .ok false, deleteResult := none,
    riverDelete := { transportError := none, status := 404 },
    riverPut := okHttp }

/-- World where the river PUT is answered with a 500 error response but the
transport itself does not fail. -/
def worldPutRejected : World :=
  { existsResult := .ok false, deleteResult := none,
    riverDelete := okHttp,
    riverPut := { transportError := none, status := 500 } }

/-- A sample pre-existing config file content with one unrelated key and one
stale cluster entry. -/
def sampleBaseConfig : Obj :=
  [("path", jobj [("logs", .str "/var/log/elasticsearch")]),
   ("cluster", jobj [("name", .str "old-cluster")])]

/-- Assigning key k yields a mapping where reading k gives the new value. -/
theorem getKey_setKey_self (o : Obj) (k : String) (v : JVal) :
    getKey (setKey o k v) k = some v := by
  induction o with
  | nil => simp [setKey, getKey]
  | cons p rest ih =>
    obtain ⟨k0, v0⟩ := p
    by_cases h : k0 = k
    · simp [setKey, getKey, h]
    · simp [setKey, getKey, h, ih]

/-- Assigning key k leaves every other key unchanged. -/
theorem getKey_setKey_other (o : Obj) (k u : String) (v : JVal) (h : k ≠ u) :
    getKey (setKey o k v) u = getKey o u := by
  induction o with
  | nil => simp [setKey, getKey, h]
  | cons p rest ih =>
    obtain ⟨k0, v0⟩ := p
    by_cases h0 : k0 = k
    · subst h0
      simp [setKey, getKey, h]
    · simp [setKey, getKey, h0, ih]

/-- Claim C1: setupIndex sequencing. An existence-check error is passed to
the callback with neither index deletion nor river recreation attempted;
when the index exists it is deleted first and a deletion error is reported
without triggering the river; when it is absent, deletion is skipped and
the orchestration goes straight to the river steps. -/
theorem setupIndex_error_sequencing (config : Config) (w : World) :
    (∀ e, w.existsResult = .error e →
      setupIndex config w = ([.checkExists], some e)) ∧
    (∀ e, w.existsResult = .ok true → w.deleteResult = some e →
      setupIndex config w = ([.checkExists, .deleteIndex], some e)) ∧
    (w.existsResult = .ok false →
      setupIndex config w =
        (Step.checkExists :: (triggerRiver config w).1, (triggerRiver config w).2) ∧
      Step.deleteIndex ∉ (setupIndex config w).1) := by
  refine ⟨?_, ?_, ?_⟩
  · intro e he
    simp [setupIndex, he]
  · intro e he hd
    simp [setupIndex, he, hd]
  · intro he
    have h1 : setupIndex config w =
        (Step.checkExists :: (triggerRiver config w).1, (triggerRiver config w).2) := by
      simp [setupIndex, he]
    refine ⟨h1, ?_⟩
    rw [h1]
    cases hrd : w.riverDelete.transportError with
    | none => simp [triggerRiver, createRiver, hrd]
    | some e => simp [triggerRiver, hrd]

/-- Witness for C1: the three branches at concrete worlds. -/
theorem setupIndex_error_sequencing_witness :
    setupIndex sampleConfig worldExistsErr =
      ([.checkExists], some "no living connections") ∧
    setupIndex sampleConfig worldDeleteErr =
      ([.checkExists, .deleteIndex], some "index delete failed") ∧
    Step.deleteIndex ∉ (setupIndex sampleConfig worldNoIndex).1 :=
  ⟨(setupIndex_error_sequencing sampleConfig worldExistsErr).1 _ rfl,
   (setupIndex_error_sequencing sampleConfig worldDeleteErr).2.1 _ rfl rfl,
   ((setupIndex_error_sequencing sampleConfig worldNoIndex).2.2 rfl).2⟩

/-- Claim C2, counterexample: the stdout handler is registered permanently
and keeps no state, so with two chunks both containing the readiness marker
the callback is scheduled twice — it is not invoked at most once. -/
theorem start_callback_not_at_most_once :
    ¬ callbackCount "pirate-123"
        [START_TRIGGER "pirate-123", START_TRIGGER "pirate-123"] ≤ 1 := by decide

/-- Handler actions over a stream are the per-chunk actions of exactly the
chunks containing the readiness marker, in stream order. -/
theorem stdoutEvents_eq_filtered (nodeName : String) (chunks : List String) :
    stdoutEvents nodeName chunks =
      ((chunks.filter (fun c => strContains c (START_TRIGGER nodeName))).map
        (fun _ => [OutEvent.runInit, OutEvent.deferCallback])).flatten := by
  induction chunks with
  | nil => rfl
  | cons c rest ih =>
    cases h : strContains c (START_TRIGGER nodeName)
    · simpa [stdoutEvents, onStdoutChunk, h] using ih
    · simpa [stdoutEvents, onStdoutChunk, h] using ih

/-- Claim C2 (amended): the callback is scheduled once per stdout chunk
containing the readiness marker — on the first such chunk initialize() runs
and the callback is deferred to the next tick, but the handler is not
de-registered, so every later marker-containing chunk runs initialize and
schedules the callback again; chunks without the marker do nothing. -/
theorem start_callback_per_trigger_chunk (nodeName : String) (chunks : List String) :
    stdoutEvents nodeName chunks =
      ((chunks.filter (fun c => strContains c (START_TRIGGER nodeName))).map
        (fun _ => [OutEvent.runInit, OutEvent.deferCallback])).flatten ∧
    callbackCount nodeName chunks =
      (chunks.filter (fun c => strContains c (START_TRIGGER nodeName))).length := by
  refine ⟨stdoutEvents_eq_filtered nodeName chunks, ?_⟩
  unfold callbackCount
  rw [stdoutEvents_eq_filtered]
  induction chunks.filter (fun c => strContains c (START_TRIGGER nodeName)) with
  | nil => rfl
  | cons c rest ih =>
    simp only [List.map_cons, List.flatten_cons, List.count_append, ih,
      List.length_cons]
    have h1 : List.count OutEvent.deferCallback
        [OutEvent.runInit, OutEvent.deferCallback] = 1 := by decide
    omega

/-- Claim C3, counterexample: building the plain search request mutates the
caller-supplied options object — after search("pirate bay", {size: 10}) the
options object is no longer {size: 10}. -/
theorem search_mutates_options :
    (search "pirate bay" [("size", JVal.num 10)]).optionsAfter ≠
      [("size", JVal.num 10)] := by decide

/-- Claim C3 (amended): both builders produce the options extended — not
replaced — with the fixed index and type fields (plus the query string or
scored body), preserving every other option key; but they are not free of
side effects on the caller's options object: extend mutates its target, so
after the call the options object is the request object itself. -/
theorem search_extends_in_place (query : String) (options : Obj)
    (hq : query ≠ "") :
    ((search query options).optionsAfter = (search query options).request ∧
     getKey (search query options).request "index" = some (.str INDEX_NAME) ∧
     getKey (search query options).request "type" = some (.str "torrent") ∧
     getKey (search query options).request "q" = some (.str query) ∧
     (∀ k, k ≠ "index" → k ≠ "type" → k ≠ "q" →
       getKey (search query options).request k = getKey options k)) ∧
    ((fullSearch query options).optionsAfter = (fullSearch query options).request ∧
     getKey (fullSearch query options).request "index" = some (.str INDEX_NAME) ∧
     getKey (fullSearch query options).request "type" = some (.str "torrent") ∧
     getKey (fullSearch query options).request "body" = some (fullSearchBody query) ∧
     (∀ k, k ≠ "index" → k ≠ "type" → k ≠ "body" →
       getKey (fullSearch query options).request k = getKey options k)) := by
  have hs : (search query options).request =
      setKey (setKey (setKey options "index" (.str INDEX_NAME))
        "type" (.str "torrent")) "q" (.str query) := rfl
  have hf : (fullSearch query options).request =
      setKey (setKey (setKey options "index" (.str INDEX_NAME))
        "type" (.str "torrent")) "body" (fullSearchBody query) := rfl
  refine ⟨⟨rfl, ?_, ?_, ?_, ?_⟩, ⟨rfl, ?_, ?_, ?_, ?_⟩⟩
  · rw [hs, getKey_setKey_other _ _ _ _ (by decide),
      getKey_setKey_other _ _ _ _ (by decide), getKey_setKey_self]
  · rw [hs, getKey_setKey_other _ _ _ _ (by decide), getKey_setKey_self]
  · rw [hs, getKey_setKey_self]
  · intro k h1 h2 h3
    rw [hs, getKey_setKey_other _ _ _ _ (Ne.symm h3),
      getKey_setKey_other _ _ _ _ (Ne.symm h2),
      getKey_setKey_other _ _ _ _ (Ne.symm h1)]
  · rw [hf, getKey_setKey_other _ _ _ _ (by decide),
      getKey_setKey_other _ _ _ _ (by decide), getKey_setKey_self]
  · rw [hf, getKey_setKey_other _ _ _ _ (by decide), getKey_setKey_self]
  · rw [hf, getKey_setKey_self]
  · intro k h1 h2 h3
    rw [hf, getKey_setKey_other _ _ _ _ (Ne.symm h3),
      getKey_setKey_other _ _ _ _ (Ne.symm h2),
      getKey_setKey_other _ _ _ _ (Ne.symm h1)]

/-- Witness for the amended C3 at search("pirate bay", {size: 10}). -/
theorem search_extends_in_place_witness :
    "pirate bay" ≠ "" ∧
    (search "pirate bay" [("size", JVal.num 10)]).optionsAfter =
      (search "pirate bay" [("size", JVal.num 10)]).request :=
  ⟨by decide,
   (search_extends_in_place "pirate bay" [("size", JVal.num 10)] (by decide)).1.1⟩

/-- Claim C4: for every non-empty query the fullSearch request body is the
scored-search body the spec describes — a function-score query wrapping a
query-string query over exactly title (boost 4) and nfo (boost 1), a
field-value-factor on seeders with the ln2p (ln(2+x)) modifier and factor
0.5, boost mode multiply, max boost 2.5, and a minimum-score floor of 0.5;
the boosted-field entries read as title with boost 4 and nfo with boost 1. -/
theorem fullSearch_scored_query (query : String) (options : Obj)
    (hq : query ≠ "") :
    getKey (fullSearch query options).request "body" = some (specScoredBody query) ∧
    ["title^4", "nfo"].map fieldBoost = [("title", 4), ("nfo", 1)] := by
  constructor
  · have hf : (fullSearch query options).request =
        setKey (setKey (setKey options "index" (.str INDEX_NAME))
          "type" (.str "torrent")) "body" (fullSearchBody query) := rfl
    rw [hf, getKey_setKey_self]
    rfl
  · decide

/-- Witness for C4 at fullSearch("pirate bay", {size: 10}). -/
theorem fullSearch_scored_query_witness :
    "pirate bay" ≠ "" ∧
    getKey (fullSearch "pirate bay" [("size", JVal.num 10)]).request "body" =
      some (specScoredBody "pirate bay") :=
  ⟨by decide,
   (fullSearch_scored_query "pirate bay" [("size", JVal.num 10)] (by decide)).1⟩

/-- Claim C5: search builds exactly the options extended with index
torrents, type torrent and the literal query string; at the spec's example
search("pirate bay", {size: 10}) the request targets index torrents, type
torrent, carries q = "pirate bay" and preserves size 10. -/
theorem search_request_shape (query : String) (options : Obj)
    (hq : query ≠ "") :
    (search query options).request =
      extend options [("index", .str INDEX_NAME), ("type", .str "torrent"),
                      ("q", .str query)] ∧
    getKey (search "pirate bay" [("size", JVal.num 10)]).request "index" =
      some (.str "torrents") ∧
    getKey (search "pirate bay" [("size", JVal.num 10)]).request "type" =
      some (.str "torrent") ∧
    getKey (search "pirate bay" [("size", JVal.num 10)]).request "q" =
      some (.str "pirate bay") ∧
    getKey (search "pirate bay" [("size", JVal.num 10)]).request "size" =
      some (.num 10) :=
  ⟨rfl, by decide, by decide, by decide, by decide⟩

/-- Witness for C5 at the spec's example call. -/
theorem search_request_shape_witness :
    "pirate bay" ≠ "" ∧
    (search "pirate bay" [("size", JVal.num 10)]).request =
      extend [("size", JVal.num 10)]
        [("index", .str INDEX_NAME), ("type", .str "torrent"),
         ("q", .str "pirate bay")] :=
  ⟨by decide,
   (search_request_shape "pirate bay" [("size", JVal.num 10)] (by decide)).1⟩

/-- Claim C6: merging the overrides into a parsed base config always
produces a written result, preserves every top-level key other than
cluster, node and network, and replaces those three wholesale with the
values derived from the node name and the runtime configuration. -/
theorem prepareConfig_frame (base : Obj) (nodeName : String) (config : Config) :
    prepareConfig (.parsed base) nodeName config =
      .ok (extend base (configOverrides nodeName config)) ∧
    (∀ k, k ≠ "cluster" → k ≠ "node" → k ≠ "network" →
      getKey (extend base (configOverrides nodeName config)) k = getKey base k) ∧
    getKey (extend base (configOverrides nodeName config)) "cluster" =
      some (jobj [("name", .str CLUSTER_NAME)]) ∧
    getKey (extend base (configOverrides nodeName config)) "node" =
      some (jobj [("name", .str nodeName),
                  ("master", .bool config.search.master)]) ∧
    getKey (extend base (configOverrides nodeName config)) "network" =
      some (jobj [("bind_host", .str config.search.host),
                  ("publish_host", .str config.search.host)]) := by
  have hx : extend base (configOverrides nodeName config) =
      setKey (setKey (setKey base
        "cluster" (jobj [("name", .str CLUSTER_NAME)]))
        "node" (jobj [("name", .str nodeName),
                      ("master", .bool config.search.master)]))
        "network" (jobj [("bind_host", .str config.search.host),
                         ("publish_host", .str config.search.host)]) := rfl
  refine ⟨rfl, ?_, ?_, ?_, ?_⟩
  · intro k h1 h2 h3
    rw [hx, getKey_setKey_other _ _ _ _ (Ne.symm h3),
      getKey_setKey_other _ _ _ _ (Ne.symm h2),
      getKey_setKey_other _ _ _ _ (Ne.symm h1)]
  · rw [hx, getKey_setKey_other _ _ _ _ (by decide),
      getKey_setKey_other _ _ _ _ (by decide), getKey_setKey_self]
  · rw [hx, getKey_setKey_other _ _ _ _ (by decide), getKey_setKey_self]
  · rw [hx, getKey_setKey_self]

/-- Witness for C6 at a base config with an unrelated path key and a stale
cluster key. -/
theorem prepareConfig_frame_witness :
    prepareConfig (.parsed sampleBaseConfig) "pirate-9" sampleConfig =
      .ok (extend sampleBaseConfig (configOverrides "pirate-9" sampleConfig)) ∧
    getKey (extend sampleBaseConfig (configOverrides "pirate-9" sampleConfig))
      "path" = getKey sampleBaseConfig "path" ∧
    getKey (extend sampleBaseConfig (configOverrides "pirate-9" sampleConfig))
      "cluster" = some (jobj [("name", .str CLUSTER_NAME)]) :=
  ⟨(prepareConfig_frame sampleBaseConfig "pirate-9" sampleConfig).1,
   (prepareConfig_frame sampleBaseConfig "pirate-9" sampleConfig).2.1 "path"
     (by decide) (by decide) (by decide),
   (prepareConfig_frame sampleBaseConfig "pirate-9" sampleConfig).2.2.1⟩

/-- Claim C7: an existing but unparseable config file makes prepareConfig
throw, so the start sequence stops after the java-home lookup: the daemon is
never spawned and no config content is written over the existing file. -/
theorem malformed_config_aborts (nodeName : String) (config : Config) :
    prepareConfig .malformed nodeName config = .error () ∧
    startSequence .malformed nodeName config = ([.findJavaHome], false) ∧
    StartStep.spawnDaemon ∉ (startSequence .malformed nodeName config).1 ∧
    ∀ content, StartStep.writeConfig content ∉
      (startSequence .malformed nodeName config).1 := by
  refine ⟨rfl, rfl, ?_, ?_⟩
  · simp [startSequence, prepareConfig]
  · intro content
    simp [startSequence, prepareConfig]

/-- Claim C8: connector recreation is exactly one river DELETE — whose
response status (404 for an absent connector included) is never consulted,
only a transport error aborts and is reported at once — then a single fixed
2000 ms settle delay, then a single PUT of the connector definition whose
transport error is reported to the caller; no step is ever retried. -/
theorem triggerRiver_single_attempt (config : Config) (w : World) :
    (∀ e, w.riverDelete.transportError = some e →
      triggerRiver config w = ([.riverDelete (RIVER_URL config)], some e)) ∧
    (w.riverDelete.transportError = none →
      triggerRiver config w =
        ([.riverDelete (RIVER_URL config), .sleep 2000,
          .riverPut (RIVER_URL config ++ "/_meta") (riverRequestBody config)],
         w.riverPut.transportError)) ∧
    (triggerRiver config w).1.countP
      (fun s => match s with | Step.riverDelete _ => true | _ => false) = 1 ∧
    (triggerRiver config w).1.countP
      (fun s => match s with | Step.sleep _ => true | _ => false) ≤ 1 ∧
    (triggerRiver config w).1.countP
      (fun s => match s with | Step.riverPut _ _ => true | _ => false) ≤ 1 := by
  refine ⟨?_, ?_, ?_, ?_, ?_⟩
  · intro e he
    simp [triggerRiver, he]
  · intro he
    simp [triggerRiver, createRiver, he]
  all_goals
    cases hrd : w.riverDelete.transportError <;>
      simp [triggerRiver, createRiver, hrd, List.countP_cons]

/-- Witness for C8 at a world whose river DELETE answers 404. -/
theorem triggerRiver_single_attempt_witness :
    triggerRiver sampleConfig worldNoIndex =
      ([.riverDelete (RIVER_URL sampleConfig), .sleep 2000,
        .riverPut (RIVER_URL sampleConfig ++ "/_meta")
          (riverRequestBody sampleConfig)], none) :=
  (triggerRiver_single_attempt sampleConfig worldNoIndex).2.1 rfl

/-- Claim C9: the code evaluated at the failing input — shutdown called
while the client handle is still undefined, initialize never having run —
dereferences the undefined handle and throws a TypeError instead of failing
fast with a clear error; once initializeClient has produced a handle the
remote shutdown is invoked on it. -/
theorem shutdown_before_init_throws :
    shutdown none = .throwsTypeError ∧
    ∀ config, shutdown (some (initializeClient config)) =
      .callsRemoteShutdown (initializeClient config) :=
  ⟨rfl, fun _ => rfl⟩

/-- Claim C10: createRiver hands its callback only the transport error, so
whenever the HTTP exchange completes — whatever the response status, a 4xx
or 5xx rejection included — the connector creation reports success, and on
the index-absent path setupIndex reports success to its caller as well. -/
theorem createRiver_ignores_response_status (config : Config) (w : World) :
    (createRiver config w).2 = w.riverPut.transportError ∧
    (400 ≤ w.riverPut.status → w.riverPut.transportError = none →
      (createRiver config w).2 = none ∧
      (w.existsResult = .ok false → w.riverDelete.transportError = none →
        (setupIndex config w).2 = none)) := by
  refine ⟨rfl, ?_⟩
  intro _ hput
  refine ⟨by simp [createRiver, hput], ?_⟩
  intro hex hdel
  simp [setupIndex, hex, triggerRiver, createRiver, hdel, hput]

/-- Witness for C10: the river PUT is answered 500 yet both the connector
creation and the whole setupIndex run report success. -/
theorem createRiver_ignores_response_status_witness :
    400 ≤ worldPutRejected.riverPut.status ∧
    (createRiver sampleConfig worldPutRejected).2 = none ∧
    (setupIndex sampleConfig worldPutRejected).2 = none :=
  ⟨by decide,
   ((createRiver_ignores_response_status sampleConfig worldPutRejected).2
     (by decide) rfl).1,
   ((createRiver_ignores_response_status sampleConfig worldPutRejected).2
     (by decide) rfl).2 rfl rfl⟩

end PirateNode
